import Mathlib

/-!
Shallow embedding of the plant-monitor frontend data-acquisition core:

* `src/src/config/app.config.ts` — thresholds, condition classifiers, config
  constants;
* `src/src/services/esp32Service.ts` — backend response transformation, ADC
  validation, the fetch error taxonomy;
* `src/src/services/mockDataService.ts` — default mock reading, mock history
  generation, history point creation;
* `src/src/hooks/useSensorData.ts` — the acquisition loop state transition
  (fetch success / failure reconciliation, rolling history buffer);
* `src/src/services/webSocketService.ts` — message handling of the inactive
  WebSocket transport.

Machine numbers: all validated ADC values flowing through the active
pipeline are integers (validateADCValue applies Math.round before clamping),
so post-validation data is modelled over ℤ.  Raw JSON field values are
modelled by the `Json` type whose numeric payload is a `JsNumber`: a finite
double modelled exactly as a rational, or one of the special values
Infinity, -Infinity and NaN.  The JSON grammar has no NaN or Infinity
literal, but `JSON.parse` still produces the infinities by numeric overflow
(for example on the input 1e999), so non-finite numbers are reachable
inputs of the validators and must be representable; NaN is not producible
by `JSON.parse` but is kept in the domain so that the `isNaN` guard of the
source is modelled rather than dropped.  Mathlib `round` is round-half-up,
exactly the behaviour of JavaScript `Math.round` on finite inputs.
-/

namespace PlantMonitor

/-! ## Condition classifier — src/src/config/app.config.ts -/

/-- The Good / Okay / Bad qualitative condition
(type `SensorCondition` in sensor.types.ts). -/
inductive SensorCondition where
  | good
  | okay
  | bad
deriving DecidableEq

/-- One display level of a thresholds table (`ThresholdLevel`). -/
structure ThresholdLevel where
  value : ℤ
  label : String
  color : String
deriving DecidableEq

/-- Sensor thresholds record (`SensorThresholds`): the `good` and `okay`
boundary plus the presentational `levels` table. -/
structure SensorThresholds where
  good : ℤ
  okay : ℤ
  levels : List ThresholdLevel
deriving DecidableEq

/-- `SOIL_MOISTURE_THRESHOLDS` from app.config.ts. -/
def SOIL_MOISTURE_THRESHOLDS : SensorThresholds :=
  { good := 1500
    okay := 2500
    levels :=
      [ { value := 1500, label := "Good", color := "hsl(var(--success))" }
      , { value := 2500, label := "Okay", color := "hsl(var(--warning))" }
      , { value := 4095, label := "Bad", color := "hsl(var(--destructive))" } ] }

/-- `LIGHT_THRESHOLDS` from app.config.ts. -/
def LIGHT_THRESHOLDS : SensorThresholds :=
  { good := 3000
    okay := 1500
    levels :=
      [ { value := 1500, label := "Bad", color := "hsl(var(--destructive))" }
      , { value := 3000, label := "Okay", color := "hsl(var(--warning))" }
      , { value := 4095, label := "Good", color := "hsl(var(--success))" } ] }

/-- `HISTORY_MAX_POINTS` from app.config.ts. -/
def HISTORY_MAX_POINTS : ℕ := 30

/-- `ESP32Config` from sensor.types.ts (updateInterval in seconds, timeout in
milliseconds). -/
structure ESP32Config where
  endpoint : String
  updateInterval : ℤ
  timeout : ℤ
deriving DecidableEq

/-- `ESP32_CONFIG` from app.config.ts. -/
def ESP32_CONFIG : ESP32Config :=
  { endpoint := "https://plant-monitor-api.onrender.com/api/readings/latest"
    updateInterval := 5
    timeout := 15000 }

/-- `DATA_SOURCE_MODE` from app.config.ts: the live build polls the backend,
so the mock branch of the acquisition loop is dead code. -/
def DATA_SOURCE_MODE : String := "esp32"

/-- `getSoilMoistureCondition` from app.config.ts: lower value = wetter =
better. -/
def getSoilMoistureCondition (value : ℤ) : SensorCondition :=
  if value ≤ SOIL_MOISTURE_THRESHOLDS.good then .good
  else if value ≤ SOIL_MOISTURE_THRESHOLDS.okay then .okay
  else .bad

/-- `getLightCondition` from app.config.ts: higher value = brighter =
better. -/
def getLightCondition (value : ℤ) : SensorCondition :=
  if value < LIGHT_THRESHOLDS.okay then .bad
  else if value < LIGHT_THRESHOLDS.good then .okay
  else .good

/-! ## JSON field values -/

/-- A JavaScript number as it can reach the validators: a finite double
(modelled exactly as a rational) or one of the special values Infinity,
-Infinity, NaN.  `JSON.parse` produces the infinities by numeric overflow
(1e999) but can never produce NaN; NaN is kept in the domain because the
source guards against it with `isNaN`. -/
inductive JsNumber where
  | finite (q : ℚ)
  | posInf
  | negInf
  | nan
deriving DecidableEq

/-- JavaScript `Math.round`: finite values round half toward positive
infinity (Mathlib round); the special values are fixed points. -/
def JsNumber.jsRound : JsNumber → JsNumber
  | .finite q => .finite (round q)
  | x => x

/-- JavaScript `Math.min` on two numbers: NaN propagates, -Infinity absorbs,
Infinity is neutral. -/
def JsNumber.jsMin : JsNumber → JsNumber → JsNumber
  | .nan, _ => .nan
  | _, .nan => .nan
  | .negInf, _ => .negInf
  | _, .negInf => .negInf
  | .posInf, y => y
  | x, .posInf => x
  | .finite a, .finite b => .finite (min a b)

/-- JavaScript `Math.max` on two numbers: NaN propagates, Infinity absorbs,
-Infinity is neutral. -/
def JsNumber.jsMax : JsNumber → JsNumber → JsNumber
  | .nan, _ => .nan
  | _, .nan => .nan
  | .posInf, _ => .posInf
  | _, .posInf => .posInf
  | .negInf, y => y
  | x, .negInf => x
  | .finite a, .finite b => .finite (max a b)

/-- A decoded JSON field value as it can reach `validateADCValue` or the
WebSocket `handleMessage` after `JSON.parse`.  `undef` stands for a missing
property, and `other` for the remaining shapes (objects, arrays) — all
non-number constructors take the same rejection path in the source. -/
inductive Json where
  | num (x : JsNumber)
  | str (s : String)
  | bool (b : Bool)
  | null
  | undef
  | other
deriving DecidableEq

/-- Whether a JSON value is a number (the `typeof value !== number` test of
the source, negated; NaN and the infinities have typeof number). -/
def Json.isNum : Json → Bool
  | .num _ => true
  | _ => false

/-- Best-effort model of the JavaScript `String(value)` rendering used inside
the template literal of the validation error message; only its presence after
the field name matters to the claims. -/
def Json.display : Json → String
  | .num (.finite q) => toString q
  | .num .posInf => "Infinity"
  | .num .negInf => "-Infinity"
  | .num .nan => "NaN"
  | .str s => s
  | .bool b => if b then "true" else "false"
  | .null => "null"
  | .undef => "undefined"
  | .other => "[object Object]"

/-! ## Fetch error taxonomy — src/src/services/esp32Service.ts -/

/-- The three error classes of esp32Service.ts:
`ESP32ConnectionError`, `ESP32TimeoutError`, `ESP32ParseError`. -/
inductive ESPError where
  | connectionError (message : String)
  | timeoutError (timeout : ℤ)
  | parseError (message : String)
deriving DecidableEq

/-- The `message` property of each error class; `ESP32TimeoutError` builds
its message from the timeout in its constructor. -/
def ESPError.message : ESPError → String
  | .connectionError m => m
  | .timeoutError t => "Request timed out after " ++ toString t ++ "ms"
  | .parseError m => m

/-- The clamp expression of `validateADCValue`,
`Math.max(0, Math.min(4095, Math.round(value)))`, evaluated on a JavaScript
number to the integer it always yields behind the isNaN guard: a finite
value rounds then clamps, Infinity clamps to 4095, -Infinity to 0 (the NaN
case is unreachable behind the guard and assigned 0).  The theorem
`jsClampADC_eval` proves this per-case table equal to the composed
`jsMax`/`jsMin`/`jsRound` operations on every non-NaN number. -/
def jsClampADC : JsNumber → ℤ
  | .finite q => max 0 (min 4095 (round q))
  | .posInf => 4095
  | .negInf => 0
  | .nan => 0

/-- `ESP32Service.validateADCValue`: the guard
`typeof value !== number || isNaN(value)` rejects every non-number and NaN
with an `ESP32ParseError` naming the field; every other number (finite or
infinite) is passed to `Math.max(0, Math.min(4095, Math.round(value)))`.
The template literal is modelled with the grouping
`"Invalid " ++ field ++ (" value: " ++ display)`; grouping of string
concatenation is semantically irrelevant. -/
def validateADCValue (value : Json) (field : String) : Except ESPError ℤ :=
  match value with
  | .num x =>
      if x = .nan then
        .error (.parseError ("Invalid " ++ field ++ (" value: " ++ (Json.num x).display)))
      else .ok (jsClampADC x)
  | v => .error (.parseError ("Invalid " ++ field ++ (" value: " ++ v.display)))

/-! ## Backend response transformation -/

/-- `BackendLatestReading` (fields used by the transformation).  The raw
numeric fields are JSON values; `timestamp` models the ISO-8601 string by
its epoch-milliseconds value, `none` meaning absent or empty (falsy), since
a truthy string is converted with `new Date` and a falsy one maps to null. -/
structure BackendLatestReading where
  soilValue : Json
  ldrValue : Json
  timestamp : Option ℤ
  deviceId : String
deriving DecidableEq

/-- `BackendAPIResponse` (fields used by the transformation). -/
structure BackendAPIResponse where
  success : Bool
  deviceStatus : String
  latest : Option BackendLatestReading
  error : Option String
deriving DecidableEq

/-- `ExtendedSensorData`: the fetcher result. -/
structure ExtendedSensorData where
  soilMoisture : ℤ
  light : ℤ
  receivedAt : Option ℤ
  deviceId : Option String
  isESP32Online : Bool
deriving DecidableEq

/-- JavaScript `a || b` for an optional string `a` (both null and the empty
string are falsy). -/
def jsOrDefault (a : Option String) (b : String) : String :=
  match a with
  | some s => if s = "" then b else s
  | none => b

/-- `ESP32Service.transformBackendData`: rejects an unsuccessful response or
a missing latest reading with an `ESP32ParseError`; otherwise validates both
ADC fields (soilValue first, as in the source object literal) and trusts the
backend deviceStatus flag as-is. -/
def transformBackendData (response : BackendAPIResponse) :
    Except ESPError ExtendedSensorData :=
  match response.success, response.latest with
  | true, some reading =>
      (validateADCValue reading.soilValue "soilValue").bind fun soilMoisture =>
        (validateADCValue reading.ldrValue "ldrValue").bind fun light =>
          .ok { soilMoisture := soilMoisture
                light := light
                receivedAt := reading.timestamp
                deviceId :=
                  if reading.deviceId = "" then none else some reading.deviceId
                isESP32Online := response.deviceStatus == "Connected" }
  | _, _ =>
      .error (.parseError (jsOrDefault response.error "No reading data available"))

/-- The ways the underlying `fetch` + `response.json()` pair can settle, as
distinguished by `ESP32Service.fetchSensorData`. -/
inductive FetchResult where
  | aborted
  | networkError (message : String)
  | httpError (status : ℕ) (statusText : String)
  | invalidJson
  | ok (response : BackendAPIResponse)

/-- The catch clause of `ESP32Service.fetchSensorData` composed with its
success path: an abort (the AbortController fired, either by timeout or by a
newer call superseding this one) resolves as `ESP32TimeoutError(timeout)`;
an HTTP error status as `ESP32ConnectionError`; an unparseable body as
`ESP32ParseError`; any other rejection is wrapped in an
`ESP32ConnectionError`; a parsed body goes through
`transformBackendData`. -/
def fetchSensorDataResolve : FetchResult → Except ESPError ExtendedSensorData
  | .aborted => .error (.timeoutError ESP32_CONFIG.timeout)
  | .networkError _ => .error (.connectionError "Failed to connect to backend API")
  | .httpError status statusText =>
      .error (.connectionError ("HTTP " ++ toString status ++ (": " ++ statusText)))
  | .invalidJson => .error (.parseError "Invalid JSON response from backend")
  | .ok response => transformBackendData response

/-! ## Mock data service — src/src/services/mockDataService.ts -/

/-- `SensorData` from sensor.types.ts: the current reading.  Every value
constructed in the active flow is an integer (validated ADC value or integer
mock value), so the fields are modelled over ℤ. -/
structure SensorData where
  soilMoisture : ℤ
  light : ℤ
deriving DecidableEq

/-- `DEFAULT_MOCK_DATA` from mockDataService.ts. -/
def DEFAULT_MOCK_DATA : SensorData :=
  { soilMoisture := 1200, light := 3200 }

/-- `ADC_MIN` from mockDataService.ts. -/
def ADC_MIN : ℤ := 0

/-- `ADC_MAX` from mockDataService.ts. -/
def ADC_MAX : ℤ := 4095

/-- `clampToADCRange` from mockDataService.ts (applied to the integer results
of `Math.floor` in the generators). -/
def clampToADCRange (value : ℤ) : ℤ :=
  max ADC_MIN (min ADC_MAX value)

/-- Display-only stand-in for `formatTimeString` (the source formats the
timestamp with `toLocaleTimeString`, a locale-dependent rendering that no
claim inspects; only the fact that the field is derived from the timestamp
matters). -/
def formatTimeString (date : ℤ) : String :=
  toString date

/-- `HistoryDataPoint` from sensor.types.ts. -/
structure HistoryDataPoint where
  time : String
  timestamp : ℤ
  soilMoisture : ℤ
  light : ℤ
deriving DecidableEq

/-- `createHistoryPoint` from mockDataService.ts; the optional timestamp
argument defaults to now (`timestamp || new Date()`, and a Date object is
always truthy). -/
def createHistoryPoint (sensorData : SensorData) (timestamp : Option ℤ)
    (now : ℤ) : HistoryDataPoint :=
  let time := timestamp.getD now
  { time := formatTimeString time
    timestamp := time
    soilMoisture := sensorData.soilMoisture
    light := sensorData.light }

/-- `generateMockHistoryData` from mockDataService.ts.  The loop runs
`i = points-1` down to `0`, pushing one point per index with timestamp
`now - i*intervalSeconds*1000` and values from `generatePatternedSensorData i`.
That generator mixes `Math.random` with floating-point trigonometry, which a
shallow embedding over exact numbers cannot reproduce, so the per-index
reading is abstracted as the `pattern` argument; every claim about this
function depends only on the number and order of the generated points. -/
def generateMockHistoryData (pattern : ℕ → SensorData) (points : ℕ)
    (intervalSeconds : ℤ) (now : ℤ) : List HistoryDataPoint :=
  (List.range points).reverse.map fun (i : ℕ) =>
    let timestamp := now - (i : ℤ) * intervalSeconds * 1000
    let sensorData := pattern i
    { time := formatTimeString timestamp
      timestamp := timestamp
      soilMoisture := sensorData.soilMoisture
      light := sensorData.light }

/-! ## Acquisition loop — src/src/hooks/useSensorData.ts -/

/-- `ConnectionState` from sensor.types.ts. -/
structure ConnectionState where
  isConnected : Bool
  lastUpdate : Option ℤ
  isChecking : Bool
  error : Option String
deriving DecidableEq

/-- The state owned by the `useSensorData` hook: the three `useState` pieces
plus the `initialFetchDone` ref (refs are shared mutable cells, so unlike the
captured `connectionState` they never go stale). -/
structure HookState where
  sensorData : SensorData
  historyData : List HistoryDataPoint
  connectionState : ConnectionState
  initialFetchDone : Bool
deriving DecidableEq

/-- The initial `useState` value of the connection state. -/
def initialConnectionState : ConnectionState :=
  { isConnected := false, lastUpdate := none, isChecking := true, error := none }

/-- The hook state on first render: default mock reading, empty history,
initial connection state, no fetch completed yet. -/
def initialHookState : HookState :=
  { sensorData := DEFAULT_MOCK_DATA
    historyData := []
    connectionState := initialConnectionState
    initialFetchDone := false }

/-- The list update of `addHistoryPoint`:
`[...prev, newPoint].slice(-HISTORY_MAX_POINTS)`.  For a positive n,
`arr.slice(-n)` keeps the last `min n arr.length` elements, which is exactly
`List.rtake` (`drop (length - n)`). -/
def addHistoryPointList (prev : List HistoryDataPoint)
    (newPoint : HistoryDataPoint) : List HistoryDataPoint :=
  (prev ++ [newPoint]).rtake HISTORY_MAX_POINTS

/-- The outcome of one fetch as seen by `fetchData` in the hook: either the
awaited `ExtendedSensorData` projected to `{newData, isESP32Online,
receivedAt}`, or the caught error message. -/
inductive FetchOutcome where
  | success (data : SensorData) (isESP32Online : Bool) (receivedAt : Option ℤ)
  | failure (message : String)
deriving DecidableEq

/-- Glue between the fetcher resolution and the hook: a fulfilled promise
yields the projected success outcome, a rejection yields
`error.message` (every thrown value is an Error instance here). -/
def outcomeOfResolve : Except ESPError ExtendedSensorData → FetchOutcome
  | .ok e => .success { soilMoisture := e.soilMoisture, light := e.light }
      e.isESP32Online e.receivedAt
  | .error err => .failure err.message

/-- Step 1 of `fetchData`: `setConnectionState(prev => ({...prev,
isChecking: true, error: null}))`, executed synchronously at dispatch. -/
def setChecking (s : HookState) : HookState :=
  { s with connectionState :=
      { s.connectionState with isChecking := true, error := none } }

/-- The resolution half of `fetchData` (everything after the awaited fetch
settles), for the live `esp32` data-source mode.

On success: `setSensorData(newData)`; `addHistoryPoint(newData,
receivedAt || now)`; connection state becomes connected per the backend
flag, `lastUpdate := receivedAt || now`, with an offline message when the
backend declares the device disconnected.

On failure: connection state is replaced with `{isConnected: false,
lastUpdate: connectionState.lastUpdate, isChecking: false, error: message}`
where `connectionState.lastUpdate` is the value captured by the closure that
is running — passed here as `capturedLastUpdate`, because the closure may be
older than the current state.  If no fetch has ever completed
(`initialFetchDone` ref is false) the reading is replaced with the default
mock data and the history is seeded with
`generateMockHistoryData(10, APP_CONFIG.esp32.updateInterval)`.

In both cases the `initialFetchDone` ref is set afterwards. -/
def applyOutcome (pattern : ℕ → SensorData) (capturedLastUpdate : Option ℤ)
    (outcome : FetchOutcome) (now : ℤ) (s : HookState) : HookState :=
  match outcome with
  | .success newData isESP32Online receivedAt =>
      { sensorData := newData
        historyData :=
          addHistoryPointList s.historyData
            (createHistoryPoint newData receivedAt now)
        connectionState :=
          { isConnected := isESP32Online
            lastUpdate := some (receivedAt.getD now)
            isChecking := false
            error :=
              if isESP32Online then none
              else some "ESP32 offline - no recent data" }
        initialFetchDone := true }
  | .failure message =>
      let s1 : HookState :=
        { s with connectionState :=
            { isConnected := false
              lastUpdate := capturedLastUpdate
              isChecking := false
              error := some message } }
      let s2 : HookState :=
        if s.initialFetchDone then s1
        else
          { s1 with
            sensorData := DEFAULT_MOCK_DATA
            historyData :=
              generateMockHistoryData pattern 10 ESP32_CONFIG.updateInterval now }
      { s2 with initialFetchDone := true }

/-- One complete non-overlapping `fetchData` cycle: the synchronous
`setChecking` at dispatch followed by the resolution step. -/
def fetchDataStep (pattern : ℕ → SensorData) (capturedLastUpdate : Option ℤ)
    (outcome : FetchOutcome) (now : ℤ) (s : HookState) : HookState :=
  applyOutcome pattern capturedLastUpdate outcome now (setChecking s)

/-- A timer-driven cycle.  The polling `useEffect` has an empty dependency
array, so the `setInterval` callback permanently holds the `fetchData`
closure created on the first render; the `connectionState` captured by that
closure is `initialConnectionState`, whose `lastUpdate` is `none`.  Every
cycle fired by the interval therefore runs with
`capturedLastUpdate = none`. -/
def polledFetchDataStep (pattern : ℕ → SensorData) (outcome : FetchOutcome)
    (now : ℤ) (s : HookState) : HookState :=
  fetchDataStep pattern initialConnectionState.lastUpdate outcome now s

/-! ## WebSocket transport — src/src/services/webSocketService.ts -/

/-- A parsed WebSocket payload: the two properties read by `handleMessage`,
each an arbitrary JSON value. -/
structure WsMessage where
  soilMoisture : Json
  light : Json
deriving DecidableEq

/-- The sensor data delivered to WebSocket subscribers.  The handler performs
no rounding, clamping or finiteness check, so the delivered fields are raw
JavaScript numbers, non-finite values included. -/
structure WsSensorData where
  soilMoisture : JsNumber
  light : JsNumber
deriving DecidableEq

/-- `WebSocketService.handleMessage`: after `JSON.parse`, each field is
checked with `typeof !== number`; a failing check throws, which the catch
swallows (the message is logged and nothing is delivered, modelled as
`none`).  A passing payload is delivered to the listeners as-is. -/
def handleMessage (message : WsMessage) : Option WsSensorData :=
  match message.soilMoisture, message.light with
  | .num soilMoisture, .num light => some { soilMoisture := soilMoisture, light := light }
  | _, _ => none

/-! ## Scenario constants and derived operations used by the verification -/

/-- Folding a sequence of appends into the rolling history buffer, starting
from the empty history of a fresh session. -/
def histFold (points : List HistoryDataPoint) : List HistoryDataPoint :=
  points.foldl addHistoryPointList []

/-- A concrete sequence of 31 history points (one more than the buffer
capacity). -/
def c6Points : List HistoryDataPoint :=
  (List.range 31).map fun i =>
    { time := "", timestamp := (i : ℤ), soilMoisture := 0, light := 0 }

/-- A hook state after one successful cycle at device time 1000: a stored
reading, one history point, connected state with `lastUpdate = some 1000`,
and the initial fetch completed. -/
def c2PreState : HookState :=
  { sensorData := { soilMoisture := 2067, light := 2858 }
    historyData :=
      [ { time := "1000", timestamp := 1000, soilMoisture := 2067, light := 2858 } ]
    connectionState :=
      { isConnected := true, lastUpdate := some 1000, isChecking := false, error := none }
    initialFetchDone := true }

/-- The two suspension points at which the AbortController of a superseded
`fetchSensorData` call can fire: while `fetch` itself is being awaited, or
while `response.json()` is being awaited inside `parseResponse`. -/
inductive AbortPhase where
  | duringFetch
  | duringBodyRead
deriving DecidableEq

/-- How a superseded call settles, by abort phase.  An abort during the
fetch await rejects the fetch promise with an AbortError, which the catch
clause maps to `ESP32TimeoutError` — the `.aborted` raw result.  An abort
during the body read rejects `response.json()`, whose rejection is
swallowed by the bare catch of `parseResponse` and resurfaces as
`ESP32ParseError("Invalid JSON response from backend")` — indistinguishable
from an unparseable body, hence the `.invalidJson` raw result. -/
def abortedFetchResult : AbortPhase → FetchResult
  | .duringFetch => .aborted
  | .duringBodyRead => .invalidJson

/-- The error message a superseded call surfaces, by abort phase. -/
def abortFailureMessage : AbortPhase → String
  | .duringFetch => "Request timed out after 15000ms"
  | .duringBodyRead => "Invalid JSON response from backend"

/-- State of the hook after the first cycle of an overlapping pair has
resolved.  Event order fixed by the event loop: cycle 1 dispatches
(`setChecking`), cycle 2 dispatches (`setChecking` again) and its
`fetchSensorData` call runs `this.abort()`, which rejects the pending
promise cycle 1 is awaiting (at either suspension point `phase`) as a
microtask — processed before any later network completion — so cycle 1
resolves via the abort path before cycle 2 resolves.  `cap1` is the
`connectionState.lastUpdate` captured by the closure running cycle 1. -/
def overlapCycle1Resolved (pattern : ℕ → SensorData) (cap1 : Option ℤ)
    (phase : AbortPhase) (t3 : ℤ) (s0 : HookState) : HookState :=
  applyOutcome pattern cap1
    (outcomeOfResolve (fetchSensorDataResolve (abortedFetchResult phase))) t3
    (setChecking (setChecking s0))

/-- State of the hook after both overlapping cycles have resolved: the
second cycle settles with raw result `result2` after the first cycle
processed its abort. -/
def overlapFinal (pattern : ℕ → SensorData) (cap1 cap2 : Option ℤ)
    (phase : AbortPhase) (t3 t4 : ℤ) (result2 : FetchResult) (s0 : HookState) :
    HookState :=
  applyOutcome pattern cap2 (outcomeOfResolve (fetchSensorDataResolve result2)) t4
    (overlapCycle1Resolved pattern cap1 phase t3 s0)

/-- A hook state past its first cycle, connected, with a last update at
device time 1000. -/
def c1State : HookState :=
  { sensorData := { soilMoisture := 2000, light := 2000 }
    historyData := []
    connectionState :=
      { isConnected := true, lastUpdate := some 1000, isChecking := false, error := none }
    initialFetchDone := true }

/-- A successful backend response carrying a reading, used as the second
cycle of the overlap scenario. -/
def c1Response2 : BackendAPIResponse :=
  { success := true
    deviceStatus := "Connected"
    latest := some
      { soilValue := .num (.finite 2067), ldrValue := .num (.finite 2858)
        timestamp := some 3000, deviceId := "ESP32_Plant_Monitor" }
    error := none }

/-- An HTTP-successful backend response whose deviceStatus declares the
device disconnected. -/
def c8Response : BackendAPIResponse :=
  { success := true
    deviceStatus := "Disconnected"
    latest := some
      { soilValue := .num (.finite 2067), ldrValue := .num (.finite 2858)
        timestamp := some 3000, deviceId := "ESP32_Plant_Monitor" }
    error := none }

/-! ## Helper lemmas -/

/-- The per-case clamp table agrees with the composed JavaScript operations
`Math.max(0, Math.min(4095, Math.round(x)))` on every non-NaN number. -/
theorem jsClampADC_eval (x : JsNumber) (h : x ≠ .nan) :
    JsNumber.jsMax (.finite 0) (JsNumber.jsMin (.finite 4095) x.jsRound)
      = .finite ((jsClampADC x : ℤ) : ℚ) := by
  cases x with
  | finite q =>
      simp only [JsNumber.jsRound, JsNumber.jsMin, JsNumber.jsMax, jsClampADC]
      push_cast
      rfl
  | posInf => simp [JsNumber.jsRound, JsNumber.jsMin, JsNumber.jsMax, jsClampADC]
  | negInf => simp [JsNumber.jsRound, JsNumber.jsMin, JsNumber.jsMax, jsClampADC]
  | nan => exact absurd rfl h

/-- The clamp always lands in the 12-bit ADC range. -/
theorem jsClampADC_range (x : JsNumber) :
    0 ≤ jsClampADC x ∧ jsClampADC x ≤ 4095 := by
  cases x with
  | finite q =>
      refine ⟨le_max_left _ _, ?_⟩
      exact max_le (by norm_num) (min_le_left _ _)
  | posInf => simp [jsClampADC]
  | negInf => simp [jsClampADC]
  | nan => simp [jsClampADC]

/-- Taking the last n elements never yields more than n elements. -/
theorem length_rtake_le {α : Type} (n : ℕ) (l : List α) : (l.rtake n).length ≤ n := by
  simp [List.rtake, List.length_drop]
  omega

/-- Taking the last n elements of a list of at most n elements is the
identity, as JavaScript `slice(-n)` is on a short array. -/
theorem rtake_of_length_le {α : Type} (n : ℕ) (l : List α) (h : l.length ≤ n) :
    l.rtake n = l := by
  simp [List.rtake, Nat.sub_eq_zero_of_le h]

/-- Truncating to the last n elements before appending more does not change
the last n elements of the whole. -/
theorem rtake_append_rtake {α : Type} (n : ℕ) (xs ys : List α) :
    (xs.rtake n ++ ys).rtake n = (xs ++ ys).rtake n := by
  simp only [List.rtake_eq_reverse_take_reverse, List.reverse_append,
    List.reverse_reverse, List.take_append_eq_append_take, List.take_take,
    List.length_reverse]
  rw [Nat.min_eq_left (Nat.sub_le n ys.length)]

/-- Folding appends into any buffer holding at most the capacity keeps
exactly the last `HISTORY_MAX_POINTS` of everything appended. -/
theorem histFold_aux (points : List HistoryDataPoint) :
    ∀ b : List HistoryDataPoint, b.length ≤ HISTORY_MAX_POINTS →
      points.foldl addHistoryPointList b = (b ++ points).rtake HISTORY_MAX_POINTS := by
  induction points with
  | nil =>
      intro b hb
      simpa using (rtake_of_length_le HISTORY_MAX_POINTS b hb).symm
  | cons p ps ih =>
      intro b hb
      rw [List.foldl_cons]
      rw [ih (addHistoryPointList b p) (length_rtake_le _ _)]
      show ((b ++ [p]).rtake HISTORY_MAX_POINTS ++ ps).rtake HISTORY_MAX_POINTS
          = (b ++ p :: ps).rtake HISTORY_MAX_POINTS
      rw [rtake_append_rtake]
      simp

/-- The generated mock history has exactly the requested number of points. -/
theorem length_generateMockHistoryData (pattern : ℕ → SensorData) (points : ℕ)
    (intervalSeconds now : ℤ) :
    (generateMockHistoryData pattern points intervalSeconds now).length = points := by
  simp [generateMockHistoryData]

/-! ## Claim theorems -/

/-- C4: for every integer v in [0, 4095], `getSoilMoistureCondition` returns
Good iff v ≤ 1500, Okay iff 1500 < v ≤ 2500, and Bad otherwise; both
boundary values 1500 and 2500 land in the better category. -/
theorem soil_condition_spec (v : ℤ) (h0 : 0 ≤ v) (h1 : v ≤ 4095) :
    (getSoilMoistureCondition v = .good ↔ v ≤ 1500)
    ∧ (getSoilMoistureCondition v = .okay ↔ (1500 < v ∧ v ≤ 2500))
    ∧ (getSoilMoistureCondition v = .bad ↔ 2500 < v) := by
  unfold getSoilMoistureCondition SOIL_MOISTURE_THRESHOLDS
  split_ifs with ha hb <;> refine ⟨?_, ?_, ?_⟩ <;> simp_all <;> omega

/-- Witness for C4 at the two boundary values. -/
theorem soil_condition_spec_witness :
    getSoilMoistureCondition 1500 = .good ∧ getSoilMoistureCondition 2500 = .okay := by
  exact ⟨(soil_condition_spec 1500 (by decide) (by decide)).1.mpr (by decide),
    (soil_condition_spec 2500 (by decide) (by decide)).2.1.mpr (by decide)⟩

/-- C5: for every integer v in [0, 4095], `getLightCondition` returns Bad
iff v < 1500, Okay iff 1500 ≤ v < 3000, and Good otherwise; both boundary
values 1500 and 3000 land in the better category, with strict < at the
lower boundary unlike the moisture classifier. -/
theorem light_condition_spec (v : ℤ) (h0 : 0 ≤ v) (h1 : v ≤ 4095) :
    (getLightCondition v = .bad ↔ v < 1500)
    ∧ (getLightCondition v = .okay ↔ (1500 ≤ v ∧ v < 3000))
    ∧ (getLightCondition v = .good ↔ 3000 ≤ v) := by
  unfold getLightCondition LIGHT_THRESHOLDS
  split_ifs with ha hb <;> refine ⟨?_, ?_, ?_⟩ <;> simp_all <;> omega

/-- Witness for C5 at the two boundary values. -/
theorem light_condition_spec_witness :
    getLightCondition 1500 = .okay ∧ getLightCondition 3000 = .good := by
  exact ⟨(light_condition_spec 1500 (by decide) (by decide)).2.1.mpr (by decide),
    (light_condition_spec 3000 (by decide) (by decide)).2.2.mpr (by decide)⟩

/-- C3 (counterexample): Infinity — reachable from the backend, since
JSON.parse turns the overflowing literal 1e999 into Infinity — is not a
finite number, yet validation does not fail with a ParseError: the guard
`typeof value !== number || isNaN(value)` accepts it and the clamp returns
4095 (and -Infinity returns 0), refuting "not a finite number implies
ParseError". -/
theorem adc_nonfinite_counterexample :
    validateADCValue (.num .posInf) "soilValue" = .ok 4095
    ∧ validateADCValue (.num .negInf) "ldrValue" = .ok 0 := by
  constructor <;> simp [validateADCValue, jsClampADC]

/-- C3 (amended): a backend field value that is not a number (or is NaN,
which the guard also rejects but JSON.parse cannot deliver) makes validation
fail with an ESP32ParseError whose message names the offending field, and
that failure propagates through `transformBackendData`, failing the fetch;
every other number — non-finite values included — is rounded and clamped
into [0, 4095]: 5000 normalizes to 4095, -10 to 0, Infinity to 4095 and
-Infinity to 0. -/
theorem adc_validation_amended (v : Json) (field : String) :
    (v.isNum = false →
      ∃ pre post, validateADCValue v field = .error (.parseError (pre ++ field ++ post)))
    ∧ (∃ pre post, validateADCValue (.num .nan) field
        = .error (.parseError (pre ++ field ++ post)))
    ∧ (∀ x : JsNumber, x ≠ .nan →
        validateADCValue (.num x) field = .ok (jsClampADC x)
        ∧ 0 ≤ jsClampADC x ∧ jsClampADC x ≤ 4095)
    ∧ (∀ q : ℚ, v = .num (.finite q) →
        validateADCValue v field = .ok (max 0 (min 4095 (round q))))
    ∧ validateADCValue (.num (.finite 5000)) "soilValue" = .ok 4095
    ∧ validateADCValue (.num (.finite (-10))) "ldrValue" = .ok 0
    ∧ validateADCValue (.num .posInf) "soilValue" = .ok 4095
    ∧ validateADCValue (.num .negInf) "ldrValue" = .ok 0
    ∧ (∀ (response : BackendAPIResponse) (reading : BackendLatestReading),
        response.success = true → response.latest = some reading →
        reading.soilValue.isNum = false →
        ∃ pre post, transformBackendData response
          = .error (.parseError (pre ++ "soilValue" ++ post))) := by
  refine ⟨?_, ?_, ?_, ?_, ?_, ?_, ?_, ?_, ?_⟩
  · intro h
    cases v <;> simp_all [Json.isNum] <;>
      exact ⟨"Invalid ", " value: " ++ Json.display _, rfl⟩
  · exact ⟨"Invalid ", " value: " ++ Json.display (.num .nan), rfl⟩
  · intro x hx
    refine ⟨?_, jsClampADC_range x⟩
    simp [validateADCValue, hx]
  · intro q hq
    subst hq
    simp [validateADCValue, jsClampADC]
  · simp only [validateADCValue, jsClampADC]
    rw [if_neg (by simp)]
    norm_num [round_eq]
  · simp only [validateADCValue, jsClampADC]
    rw [if_neg (by simp)]
    norm_num [round_eq]
  · simp [validateADCValue, jsClampADC]
  · simp [validateADCValue, jsClampADC]
  · intro response reading hsucc hlatest hnum
    refine ⟨"Invalid ", " value: " ++ reading.soilValue.display, ?_⟩
    cases hv : reading.soilValue <;> rw [hv] at hnum <;> simp [Json.isNum] at hnum <;>
      simp [transformBackendData, hsucc, hlatest, validateADCValue, hv, Except.bind, Json.display]

/-- Witness for C3 (amended): a null soilValue is rejected with a message
naming the field, 5000 normalizes to 4095, and Infinity is clamped, not
rejected. -/
theorem adc_validation_amended_witness :
    (∃ pre post, validateADCValue .null "soilValue"
        = .error (.parseError (pre ++ "soilValue" ++ post)))
    ∧ validateADCValue (.num (.finite 5000)) "soilValue" = .ok 4095
    ∧ validateADCValue (.num .posInf) "soilValue" = .ok 4095 :=
  ⟨(adc_validation_amended .null "soilValue").1 rfl,
    (adc_validation_amended .null "soilValue").2.2.2.2.1,
    (adc_validation_amended .null "soilValue").2.2.2.2.2.2.1⟩

/-- C10: `validateADCValue` is the identity on integers already in
[0, 4095], and it is idempotent — re-validating any accepted result (the
accepted inputs now including the non-finite numbers Infinity and
-Infinity, which are clamped to 4095 and 0) gives the same value back, so
re-validating a stored reading never alters it. -/
theorem adc_identity_idempotent (field : String) :
    (∀ v : ℤ, 0 ≤ v → v ≤ 4095 →
      validateADCValue (.num (.finite (v : ℚ))) field = .ok v)
    ∧ (∀ (j : Json) (r : ℤ), validateADCValue j field = .ok r →
        validateADCValue (.num (.finite (r : ℚ))) field = .ok r) := by
  have hid : ∀ v : ℤ, 0 ≤ v → v ≤ 4095 →
      validateADCValue (.num (.finite (v : ℚ))) field = .ok v := by
    intro v h0 h1
    simp only [validateADCValue, jsClampADC, round_intCast,
      reduceCtorEq, if_false]
    rw [min_eq_right h1, max_eq_right h0]
  refine ⟨hid, ?_⟩
  intro j r h
  cases j with
  | str s => simp [validateADCValue] at h
  | bool b => simp [validateADCValue] at h
  | null => simp [validateADCValue] at h
  | undef => simp [validateADCValue] at h
  | other => simp [validateADCValue] at h
  | num x =>
    have hr : r = jsClampADC x := by
      cases x with
      | nan => simp [validateADCValue] at h
      | finite q =>
          simp only [validateADCValue, reduceCtorEq, if_false] at h
          cases h
          rfl
      | posInf =>
          simp only [validateADCValue, reduceCtorEq, if_false] at h
          cases h
          rfl
      | negInf =>
          simp only [validateADCValue, reduceCtorEq, if_false] at h
          cases h
          rfl
    exact hid r (hr ▸ (jsClampADC_range x).1) (hr ▸ (jsClampADC_range x).2)

/-- Witness for C10: identity at 2067, and idempotence applied both to the
accepted-and-clamped result of 5000 and to the accepted-and-clamped result
of Infinity. -/
theorem adc_identity_idempotent_witness :
    validateADCValue (.num (.finite ((2067 : ℤ) : ℚ))) "soilValue" = .ok 2067
    ∧ validateADCValue (.num (.finite ((4095 : ℤ) : ℚ))) "soilValue" = .ok 4095 := by
  refine ⟨(adc_identity_idempotent "soilValue").1 2067 (by decide) (by decide), ?_⟩
  refine (adc_identity_idempotent "soilValue").2 (.num .posInf) 4095 ?_
  simp [validateADCValue, jsClampADC]

/-- C6: appending N > 30 points to the rolling history buffer (capacity
`HISTORY_MAX_POINTS = 30`, starting empty) leaves exactly the last 30
appended points in append order, and after every append along the way the
buffer length is at most 30. -/
theorem history_buffer_spec (points : List HistoryDataPoint)
    (h : HISTORY_MAX_POINTS < points.length) :
    (histFold points).length = HISTORY_MAX_POINTS
    ∧ histFold points = points.drop (points.length - HISTORY_MAX_POINTS)
    ∧ ∀ k : ℕ, (histFold (points.take k)).length ≤ HISTORY_MAX_POINTS := by
  have hmain : ∀ qs : List HistoryDataPoint, histFold qs = qs.rtake HISTORY_MAX_POINTS := by
    intro qs
    have := histFold_aux qs [] (by simp)
    simpa [histFold] using this
  refine ⟨?_, ?_, ?_⟩
  · rw [hmain, List.rtake, List.length_drop]
    omega
  · rw [hmain, List.rtake]
  · intro k
    rw [hmain]
    exact length_rtake_le _ _

/-- Witness for C6 on a concrete sequence of 31 appends. -/
theorem history_buffer_spec_witness :
    HISTORY_MAX_POINTS < c6Points.length
    ∧ (histFold c6Points).length = HISTORY_MAX_POINTS
    ∧ histFold c6Points = c6Points.drop 1 := by
  refine ⟨by decide, (history_buffer_spec c6Points (by decide)).1, ?_⟩
  have h := (history_buffer_spec c6Points (by decide)).2.1
  simpa [c6Points] using h

/-- C7: if the very first cycle ever attempted fails, the reading becomes
the default mock reading, the history is seeded with exactly 10 generated
points, the connection is marked disconnected with a non-null error; and
this fallback never fires on a later failing cycle (reading and history are
then left untouched). -/
theorem first_failure_mock_seeding (pattern : ℕ → SensorData)
    (capturedLastUpdate : Option ℤ) (message : String) (now : ℤ) (s : HookState)
    (h : s.initialFetchDone = false) :
    ((fetchDataStep pattern capturedLastUpdate (.failure message) now s).sensorData
        = DEFAULT_MOCK_DATA
      ∧ (fetchDataStep pattern capturedLastUpdate (.failure message) now s).historyData.length = 10
      ∧ (fetchDataStep pattern capturedLastUpdate (.failure message) now s).connectionState.isConnected = false
      ∧ (fetchDataStep pattern capturedLastUpdate (.failure message) now s).connectionState.error = some message)
    ∧ ∀ (s2 : HookState), s2.initialFetchDone = true →
        ∀ (c2 : Option ℤ) (m2 : String) (n2 : ℤ),
          (fetchDataStep pattern c2 (.failure m2) n2 s2).sensorData = s2.sensorData
          ∧ (fetchDataStep pattern c2 (.failure m2) n2 s2).historyData = s2.historyData := by
  constructor
  · simp [fetchDataStep, applyOutcome, setChecking, h, length_generateMockHistoryData]
  · intro s2 h2 c2 m2 n2
    simp [fetchDataStep, applyOutcome, setChecking, h2]

/-- Witness for C7: a first-ever cycle failing with a connection error,
from the initial hook state. -/
theorem first_failure_mock_seeding_witness :
    initialHookState.initialFetchDone = false
    ∧ (fetchDataStep (fun _ => DEFAULT_MOCK_DATA) none
        (.failure "Failed to connect to backend API") 0 initialHookState).sensorData
        = DEFAULT_MOCK_DATA
    ∧ (fetchDataStep (fun _ => DEFAULT_MOCK_DATA) none
        (.failure "Failed to connect to backend API") 0 initialHookState).historyData.length = 10 :=
  ⟨rfl,
    ((first_failure_mock_seeding (fun _ => DEFAULT_MOCK_DATA) none
      "Failed to connect to backend API" 0 initialHookState rfl).1).1,
    ((first_failure_mock_seeding (fun _ => DEFAULT_MOCK_DATA) none
      "Failed to connect to backend API" 0 initialHookState rfl).1).2.1⟩

/-- C8: an HTTP-successful response whose deviceStatus is "Disconnected"
transforms into a result with `isESP32Online = false`, and applying that
cycle leaves the connection marked disconnected with the non-null offline
message while the reading, the history, and lastUpdate are still updated
from the response. -/
theorem disconnected_device_cycle (response : BackendAPIResponse)
    (reading : BackendLatestReading) (soil light : ℤ)
    (pattern : ℕ → SensorData) (capturedLastUpdate : Option ℤ) (now : ℤ)
    (s : HookState)
    (hsucc : response.success = true) (hlatest : response.latest = some reading)
    (hstatus : response.deviceStatus = "Disconnected")
    (hsoil : validateADCValue reading.soilValue "soilValue" = .ok soil)
    (hlight : validateADCValue reading.ldrValue "ldrValue" = .ok light) :
    ∃ e : ExtendedSensorData,
      transformBackendData response = .ok e
      ∧ e.isESP32Online = false
      ∧ e.soilMoisture = soil ∧ e.light = light ∧ e.receivedAt = reading.timestamp
      ∧ (fetchDataStep pattern capturedLastUpdate (outcomeOfResolve (.ok e)) now s).connectionState.isConnected = false
      ∧ (fetchDataStep pattern capturedLastUpdate (outcomeOfResolve (.ok e)) now s).connectionState.error
          = some "ESP32 offline - no recent data"
      ∧ (fetchDataStep pattern capturedLastUpdate (outcomeOfResolve (.ok e)) now s).sensorData
          = { soilMoisture := soil, light := light }
      ∧ (fetchDataStep pattern capturedLastUpdate (outcomeOfResolve (.ok e)) now s).connectionState.lastUpdate
          = some (reading.timestamp.getD now)
      ∧ (fetchDataStep pattern capturedLastUpdate (outcomeOfResolve (.ok e)) now s).historyData
          = addHistoryPointList s.historyData
              (createHistoryPoint { soilMoisture := soil, light := light } reading.timestamp now) := by
  refine ⟨{ soilMoisture := soil, light := light, receivedAt := reading.timestamp
            deviceId := if reading.deviceId = "" then none else some reading.deviceId
            isESP32Online := false }, ?_, rfl, rfl, rfl, rfl, ?_, ?_, ?_, ?_, ?_⟩
  · simp [transformBackendData, hsucc, hlatest, hsoil, hlight, hstatus, Except.bind]
  · simp [fetchDataStep, applyOutcome, setChecking, outcomeOfResolve]
  · simp [fetchDataStep, applyOutcome, setChecking, outcomeOfResolve]
  · simp [fetchDataStep, applyOutcome, setChecking, outcomeOfResolve]
  · simp [fetchDataStep, applyOutcome, setChecking, outcomeOfResolve]
  · simp [fetchDataStep, applyOutcome, setChecking, outcomeOfResolve]

/-- Witness for C8 on a concrete disconnected response applied to the
initial hook state. -/
theorem disconnected_device_cycle_witness :
    ∃ e : ExtendedSensorData,
      transformBackendData c8Response = .ok e
      ∧ e.isESP32Online = false
      ∧ e.soilMoisture = 2067 ∧ e.light = 2858 ∧ e.receivedAt = some 3000
      ∧ (fetchDataStep (fun _ => DEFAULT_MOCK_DATA) none (outcomeOfResolve (.ok e)) 5000 initialHookState).connectionState.isConnected = false
      ∧ (fetchDataStep (fun _ => DEFAULT_MOCK_DATA) none (outcomeOfResolve (.ok e)) 5000 initialHookState).connectionState.error
          = some "ESP32 offline - no recent data"
      ∧ (fetchDataStep (fun _ => DEFAULT_MOCK_DATA) none (outcomeOfResolve (.ok e)) 5000 initialHookState).sensorData
          = { soilMoisture := 2067, light := 2858 }
      ∧ (fetchDataStep (fun _ => DEFAULT_MOCK_DATA) none (outcomeOfResolve (.ok e)) 5000 initialHookState).connectionState.lastUpdate
          = some 3000
      ∧ (fetchDataStep (fun _ => DEFAULT_MOCK_DATA) none (outcomeOfResolve (.ok e)) 5000 initialHookState).historyData
          = addHistoryPointList initialHookState.historyData
              (createHistoryPoint { soilMoisture := 2067, light := 2858 } (some 3000) 5000) := by
  have h := disconnected_device_cycle c8Response
    { soilValue := .num (.finite 2067), ldrValue := .num (.finite 2858)
      timestamp := some 3000, deviceId := "ESP32_Plant_Monitor" }
    2067 2858 (fun _ => DEFAULT_MOCK_DATA) none 5000 initialHookState
    rfl rfl rfl
    (by simp only [validateADCValue, jsClampADC]
        rw [if_neg (by simp)]
        norm_num [round_eq])
    (by simp only [validateADCValue, jsClampADC]
        rw [if_neg (by simp)]
        norm_num [round_eq])
  exact h

/-- C2 (failing input): a timer-driven cycle runs the mount-time `fetchData`
closure, whose captured `connectionState.lastUpdate` is null; on failure the
catch clause writes that captured value back, so a polled failing cycle
after a successful one resets `lastUpdate` from `some 1000` to `none`
instead of preserving it — while the current reading and the history are
preserved as the claim states.  The source comments intend preservation
("Keep showing last known values" and "fetchData is stable via useCallback",
the latter false because `connectionState.lastUpdate` is in the useCallback
dependency list), so this is a stale-closure defect in the code. -/
theorem polled_failure_resets_lastUpdate :
    c2PreState.connectionState.lastUpdate = some 1000
    ∧ (polledFetchDataStep (fun _ => DEFAULT_MOCK_DATA)
        (.failure "HTTP 500: Internal Server Error") 2000 c2PreState).connectionState.lastUpdate
        = none
    ∧ (polledFetchDataStep (fun _ => DEFAULT_MOCK_DATA)
        (.failure "HTTP 500: Internal Server Error") 2000 c2PreState).sensorData
        = c2PreState.sensorData
    ∧ (polledFetchDataStep (fun _ => DEFAULT_MOCK_DATA)
        (.failure "HTTP 500: Internal Server Error") 2000 c2PreState).historyData
        = c2PreState.historyData := by
  refine ⟨rfl, ?_, ?_, ?_⟩ <;>
    simp [polledFetchDataStep, fetchDataStep, applyOutcome, setChecking,
      initialConnectionState, c2PreState]

/-- C1 (counterexample): in the overlap schedule the first cycle resolves
through the abort path — at either suspension point — and its resolution
DOES mutate the shared state: the state after its resolution differs from
the state before it (the error field gains the timeout message when the
abort lands during the fetch await, or the invalid-JSON message when it
lands during the body read, and isConnected drops), refuting the claim that
the first resolution causes no state mutation. -/
theorem overlap_first_resolution_mutates_state :
    overlapCycle1Resolved (fun _ => DEFAULT_MOCK_DATA) (some 1000) .duringFetch 1500 c1State
      ≠ setChecking (setChecking c1State)
    ∧ (overlapCycle1Resolved (fun _ => DEFAULT_MOCK_DATA) (some 1000) .duringFetch 1500 c1State).connectionState.error
        = some "Request timed out after 15000ms"
    ∧ overlapCycle1Resolved (fun _ => DEFAULT_MOCK_DATA) (some 1000) .duringBodyRead 1500 c1State
      ≠ setChecking (setChecking c1State)
    ∧ (overlapCycle1Resolved (fun _ => DEFAULT_MOCK_DATA) (some 1000) .duringBodyRead 1500 c1State).connectionState.error
        = some "Invalid JSON response from backend"
    ∧ (setChecking (setChecking c1State)).connectionState.error = none := by
  refine ⟨?_, by decide, ?_, by decide, by decide⟩ <;> decide

/-- C1 (amended): when a second cycle dispatches before the first resolves,
the first call is aborted at whichever suspension point it is awaiting, so
the first cycle always resolves as a failure — ESP32TimeoutError if the
abort lands during the fetch await, ESP32ParseError (the invalid-JSON
message, via the bare catch of parseResponse) if it lands during the body
read — and never as a success: given a previously completed fetch its
resolution leaves the reading and the history unchanged, and the final
reading, connected flag, lastUpdate and appended history point come only
from the second cycle.  The first resolution is however not fully
discarded: it mutates connection state (isConnected false, the failure
message of its abort phase) before the second result lands. -/
theorem overlap_supersedes_data_only (pattern : ℕ → SensorData) (s0 : HookState)
    (cap1 cap2 : Option ℤ) (phase : AbortPhase) (t3 t4 : ℤ) (result2 : FetchResult)
    (d : SensorData) (isOnline : Bool) (receivedAt : Option ℤ)
    (hdone : s0.initialFetchDone = true)
    (hr : outcomeOfResolve (fetchSensorDataResolve result2)
        = .success d isOnline receivedAt) :
    outcomeOfResolve (fetchSensorDataResolve (abortedFetchResult phase))
        = .failure (abortFailureMessage phase)
    ∧ (overlapCycle1Resolved pattern cap1 phase t3 s0).sensorData = s0.sensorData
    ∧ (overlapCycle1Resolved pattern cap1 phase t3 s0).historyData = s0.historyData
    ∧ (overlapCycle1Resolved pattern cap1 phase t3 s0).connectionState.isConnected = false
    ∧ (overlapCycle1Resolved pattern cap1 phase t3 s0).connectionState.error
        = some (abortFailureMessage phase)
    ∧ (overlapFinal pattern cap1 cap2 phase t3 t4 result2 s0).sensorData = d
    ∧ (overlapFinal pattern cap1 cap2 phase t3 t4 result2 s0).connectionState.isConnected = isOnline
    ∧ (overlapFinal pattern cap1 cap2 phase t3 t4 result2 s0).connectionState.lastUpdate
        = some (receivedAt.getD t4)
    ∧ (overlapFinal pattern cap1 cap2 phase t3 t4 result2 s0).historyData
        = addHistoryPointList s0.historyData (createHistoryPoint d receivedAt t4) := by
  have habort : outcomeOfResolve (fetchSensorDataResolve (abortedFetchResult phase))
      = .failure (abortFailureMessage phase) := by
    cases phase <;> decide
  have h1 : (overlapCycle1Resolved pattern cap1 phase t3 s0).sensorData = s0.sensorData ∧
      (overlapCycle1Resolved pattern cap1 phase t3 s0).historyData = s0.historyData ∧
      (overlapCycle1Resolved pattern cap1 phase t3 s0).connectionState.isConnected = false ∧
      (overlapCycle1Resolved pattern cap1 phase t3 s0).connectionState.error
        = some (abortFailureMessage phase) := by
    rw [overlapCycle1Resolved, habort]
    simp [applyOutcome, setChecking, hdone]
  refine ⟨habort, h1.1, h1.2.1, h1.2.2.1, h1.2.2.2, ?_, ?_, ?_, ?_⟩ <;>
    rw [overlapFinal, hr] <;>
    simp [applyOutcome, h1.2.1]

/-- Witness for C1 (amended) on a concrete overlap: state past its first
cycle, abort landing during the body read, second cycle resolving with a
successful connected response. -/
theorem overlap_supersedes_data_only_witness :
    c1State.initialFetchDone = true
    ∧ (overlapCycle1Resolved (fun _ => DEFAULT_MOCK_DATA) (some 1000) .duringBodyRead 1500 c1State).sensorData
        = c1State.sensorData
    ∧ (overlapFinal (fun _ => DEFAULT_MOCK_DATA) (some 1000) (some 1000) .duringBodyRead 1500 3500
        (.ok c1Response2) c1State).sensorData = { soilMoisture := 2067, light := 2858 }
    ∧ (overlapFinal (fun _ => DEFAULT_MOCK_DATA) (some 1000) (some 1000) .duringBodyRead 1500 3500
        (.ok c1Response2) c1State).connectionState.lastUpdate = some 3000 := by
  have h := overlap_supersedes_data_only (fun _ => DEFAULT_MOCK_DATA) c1State
    (some 1000) (some 1000) .duringBodyRead 1500 3500 (.ok c1Response2)
    { soilMoisture := 2067, light := 2858 } true (some 3000) rfl
    (by simp [fetchSensorDataResolve, c1Response2, transformBackendData,
          validateADCValue, jsClampADC, Except.bind, outcomeOfResolve, round_eq])
  exact ⟨rfl, h.2.1, h.2.2.2.2.2.1, h.2.2.2.2.2.2.2.1⟩

/-- C9 (counterexample): the WebSocket handler delivers a payload with
soilMoisture 5000 as-is, above the ADC maximum, and likewise delivers a
non-finite soilMoisture (Infinity, reachable via JSON numeric overflow)
unchanged, whereas the HTTP validator clamps 5000 — and Infinity — to
4095; so the validation of the HTTP fetcher does not apply on the
WebSocket channel. -/
theorem ws_no_clamping_counterexample :
    handleMessage { soilMoisture := .num (.finite 5000), light := .num (.finite 3000) }
      = some { soilMoisture := .finite 5000, light := .finite 3000 }
    ∧ handleMessage { soilMoisture := .num .posInf, light := .num (.finite 3000) }
      = some { soilMoisture := .posInf, light := .finite 3000 }
    ∧ ¬ ((5000 : ℚ) ≤ 4095)
    ∧ validateADCValue (.num (.finite 5000)) "soilMoisture" = .ok 4095
    ∧ validateADCValue (.num .posInf) "soilMoisture" = .ok 4095 := by
  refine ⟨by decide, by decide, by norm_num, ?_, by simp [validateADCValue, jsClampADC]⟩
  simp only [validateADCValue, jsClampADC]
  rw [if_neg (by simp)]
  norm_num [round_eq]

/-- C9 (amended): the WebSocket handler checks only that both fields are of
number type — a payload failing the typeof check is dropped and nothing is
delivered — and delivers accepted numbers unchanged, with no finiteness
check, no clamping and no rounding, non-finite values included. -/
theorem ws_validation_amended (message : WsMessage) :
    (∀ a b : JsNumber, message.soilMoisture = .num a → message.light = .num b →
      handleMessage message = some { soilMoisture := a, light := b })
    ∧ ((message.soilMoisture.isNum = false ∨ message.light.isNum = false) →
        handleMessage message = none) := by
  obtain ⟨ms, ml⟩ := message
  constructor
  · intro a b ha hb
    subst ha
    subst hb
    rfl
  · intro h
    cases ms <;> cases ml <;> simp_all [Json.isNum, handleMessage]

/-- Witness for C9 (amended): an in-type payload (with one non-finite
field) is delivered unchanged and a payload with a string field is
dropped. -/
theorem ws_validation_amended_witness :
    handleMessage { soilMoisture := .num (.finite 5000), light := .num .posInf }
      = some { soilMoisture := .finite 5000, light := .posInf }
    ∧ handleMessage { soilMoisture := .str "x", light := .num (.finite 1) } = none :=
  ⟨(ws_validation_amended { soilMoisture := .num (.finite 5000), light := .num .posInf }).1
      (.finite 5000) .posInf rfl rfl,
    (ws_validation_amended { soilMoisture := .str "x", light := .num (.finite 1) }).2
      (Or.inl rfl)⟩

end PlantMonitor
